import Mathlib

/-!
Verification of the chart-lifecycle controller, the data-fetch layer and the
presentation formatting of the `kr-` market-dashboard repository, shallowly
embedded in Lean 4.  Prices and JS numbers are modelled as rationals, machine
dates remain opaque strings paired with an abstract parse function, and the
stateful React component is embedded as explicit state-passing functions.
-/

namespace KrDash

/-- One trading-period record of the historical series, as returned by
`GET {base}/history/{id}` and typed by interface `StockHistory` in
`lib/api.ts`: date, open, high, low, close, volume. -/
structure HistoryPoint where
  date : String
  «open» : ℚ
  high : ℚ
  low : ℚ
  close : ℚ
  volume : ℚ
deriving Repr, DecidableEq

/-- One candle record passed to the chart series: the result of mapping a
history point to the object literal
`\x7btime: d.date, open: d.open, high: d.high, low: d.low, close: d.close\x7d`
in `StockChartModal`. -/
structure Candle where
  time : String
  «open» : ℚ
  high : ℚ
  low : ℚ
  close : ℚ
deriving Repr, DecidableEq

/-- The mapping step of `StockChartModal`: `data.map(d => (\x7btime: d.date, ...\x7d))`. -/
def toCandle (d : HistoryPoint) : Candle :=
  { time := d.date, «open» := d.«open», high := d.high, low := d.low, close := d.close }

/-- The series actually loaded into the chart: the mapped candles sorted by
the comparator `(a, b) => new Date(a.time).getTime() - new Date(b.time).getTime()`.
A JS sort with a numeric comparator orders ascending by the compared key, so
we embed it as a merge sort whose Boolean order is
`parseTime a.time <= parseTime b.time`, where `parseTime` stands for
`s => new Date(s).getTime()`. -/
def chartDataOf (parseTime : String → Int) (data : List HistoryPoint) : List Candle :=
  (data.map toCandle).mergeSort (fun a b => decide (parseTime a.time ≤ parseTime b.time))

/-- Lifecycle events on chart instances, recorded so that the number of live
(created but not yet removed) instances can be observed. `created i` stands
for `createChart(...)` returning handle `i`; `removed i` for `i.remove()`. -/
inductive ChartEvent where
  | created (id : Nat)
  | removed (id : Nat)
deriving Repr, DecidableEq

/-- The chart-lifecycle controller state of `StockChartModal`: the `chartRef`
ref cell (`useRef<IChartApi | null>`), whether the deferred-construction
`setTimeout` is pending, a supply of fresh instance handles, and the event
log of creations and removals performed so far. -/
structure Ctrl where
  chartRef : Option Nat
  timerPending : Bool
  nextId : Nat
  log : List ChartEvent
deriving Repr, DecidableEq

/-- Initial controller state: `chartRef.current === null`, no timer armed. -/
def Ctrl.init : Ctrl :=
  { chartRef := none, timerPending := false, nextId := 0, log := [] }

/-- The disposal idiom used at all three sites:
`if (chartRef.current) \x7b chartRef.current.remove(); chartRef.current = null; \x7d`. -/
def removeChart (s : Ctrl) : Ctrl :=
  match s.chartRef with
  | some c => { s with chartRef := none, log := s.log ++ [ChartEvent.removed c] }
  | none => s

/-- The body of the chart effect. `guardsPass` stands for
`opened && signal && containerReady && chartContainerRef.current`; when it
fails the effect returns early, otherwise it disposes any previous chart and
arms the 300 ms deferred-construction timer. -/
def effectRun (s : Ctrl) (guardsPass : Bool) : Ctrl :=
  if guardsPass then
    let s1 := removeChart s
    { s1 with timerPending := true }
  else s

/-- The deferred-construction callback (`initChart`): if the timer was
cancelled it never runs; it returns early when the container is gone,
otherwise it disposes any previous chart (the double-safety site) and then
constructs a fresh instance, storing it in `chartRef`. -/
def timerFire (s : Ctrl) (containerMounted : Bool) : Ctrl :=
  if s.timerPending then
    let s0 := { s with timerPending := false }
    if containerMounted then
      let s1 := removeChart s0
      { s1 with chartRef := some s1.nextId, nextId := s1.nextId + 1,
                log := s1.log ++ [ChartEvent.created s1.nextId] }
    else s0
  else s

/-- The effect cleanup: `clearTimeout(initChart)`, remove the resize
listener, and dispose the live chart if one exists. -/
def cleanup (s : Ctrl) : Ctrl :=
  removeChart { s with timerPending := false }

/-- The external triggers that drive the controller. A window resize only
applies a width option to the live instance and leaves the lifecycle state
unchanged. -/
inductive Act where
  | effectRun (guardsPass : Bool)
  | timerFire (containerMounted : Bool)
  | resize
  | cleanup
deriving Repr, DecidableEq

/-- One controller step for one trigger. -/
def stepCtrl (s : Ctrl) (a : Act) : Ctrl :=
  match a with
  | Act.effectRun g => effectRun s g
  | Act.timerFire m => timerFire s m
  | Act.resize => s
  | Act.cleanup => cleanup s

/-- Run the controller from its initial state through a trigger sequence. -/
def runCtrl (acts : List Act) : Ctrl :=
  acts.foldl stepCtrl Ctrl.init

/-- The handles created and not yet removed after a given event log. -/
def liveInsts (log : List ChartEvent) : List Nat :=
  log.foldl
    (fun acc e =>
      match e with
      | ChartEvent.created i => i :: acc
      | ChartEvent.removed i => acc.erase i)
    []

/-- The controller invariant: the live instances are exactly the content of
`chartRef` — one when a chart is held, none otherwise. -/
def ctrlInv (s : Ctrl) : Prop :=
  liveInsts s.log = (match s.chartRef with | some c => [c] | none => [])

/-- A JSON value as handled by the dashboard: responses are parsed JSON and
the displayed signal entity is a plain JS object. Objects are association
lists of own properties (first binding wins on lookup). -/
inductive JsValue where
  | null
  | bool (b : Bool)
  | num (q : ℚ)
  | str (s : String)
  | arr (xs : List JsValue)
  | obj (fields : List (String × JsValue))

/-- Own-property lookup on a JS object: `o[k]`, `none` meaning `undefined`. -/
def objGet (o : List (String × JsValue)) (k : String) : Option JsValue :=
  (o.find? (fun kv => kv.1 = k)).map (fun kv => kv.2)

/-- The object-spread merge `(\x7b ...prev, ...resp \x7d)` used by
`setSignal(prev => prev ? (\x7b...prev, ...freshSignal\x7d) : freshSignal)`:
properties of `resp` overwrite, properties absent from `resp` are kept
from `prev`. -/
def spreadMerge (prev resp : List (String × JsValue)) :
    List (String × JsValue) :=
  prev.filter (fun kv => (objGet resp kv.1).isNone) ++ resp

/-- JS truthiness of a value (`null`, `false`, `0` and the empty string are
falsy; `undefined` is handled at the `Option` level by the callers). -/
def jsTruthy : JsValue → Bool
  | JsValue.null => false
  | JsValue.bool b => b
  | JsValue.num q => decide (q ≠ 0)
  | JsValue.str s => decide (s ≠ "")
  | JsValue.arr _ => true
  | JsValue.obj _ => true

/-- Property access `v.k` on an arbitrary JS value: defined only for
objects, `undefined` on other non-nullish primitives. Access on `null` or
`undefined` throws and is handled separately by the callers. -/
def jsField : JsValue → String → Option JsValue
  | JsValue.obj fs, k => objGet fs k
  | _, _ => none

/-- The JS idiom `x || d`: the default replaces an absent or falsy value. -/
def jsOrDefault (v : Option JsValue) (d : JsValue) : JsValue :=
  match v with
  | some x => if jsTruthy x then x else d
  | none => d

/-- The React state of `StockChartModal` that the claims observe: the
`loading`, `analyzing` and `error` states, the locally displayed `signal`
entity, the inline `analysisResult` (source, action, reason), the live chart
instance handle and the candle series loaded into it. -/
structure ModalState where
  loading : Bool
  analyzing : Bool
  error : Option String
  signal : Option (List (String × JsValue))
  analysisResult : Option (JsValue × JsValue × JsValue)
  chart : Option Nat
  series : List Candle

/-- The continuation of `fetchStockHistory(signal.ticker)` in the chart
effect: the `.then` branch ignores null/undefined or empty data after
clearing the loading flag, loads the sorted candles otherwise; the `.catch`
branch records the inline error text; `.finally` clears the loading flag in
every case. The fetch outcome is `Except` (rejection carries the message)
of an `Option` (a null/undefined body) of the record list. -/
def onHistoryResult (parseTime : String → Int) (s : ModalState)
    (r : Except String (Option (List HistoryPoint))) : ModalState :=
  let s' :=
    match r with
    | Except.error _ => { s with error := some "Failed to load chart data" }
    | Except.ok none => s
    | Except.ok (some data) =>
        if data.length = 0 then s
        else { s with series := chartDataOf parseTime data }
  { s' with loading := false }

/-- `handleReAnalyze`, embedded as a function of the current state and of the
outcome of `fetchStockAnalysis(signal.ticker)`. Guard: return unchanged when
no signal is displayed. Then `setAnalyzing(true)` and `setAnalysisResult(null)`,
and on a resolved response the fresh fields are spread-merged onto the
displayed signal; afterwards `(rec as any).source` throws a TypeError (caught
by the same `catch`) when `gpt_recommendation` is absent or null, otherwise
the inline result is stored with the `|| 'AI Model'`, `|| 'HOLD'`,
`|| 'Analysis completed.'` defaults. On rejection the catch sets the local
error text; `finally` clears `analyzing`. -/
def handleReAnalyze (s : ModalState)
    (outcome : Except String (List (String × JsValue))) : ModalState :=
  match s.signal with
  | none => s
  | some prev =>
    let s1 := { s with analyzing := true, analysisResult := none }
    match outcome with
    | Except.error _ =>
        { s1 with error := some "Analysis failed. Please try again.",
                  analyzing := false }
    | Except.ok fresh =>
        let s2 := { s1 with signal := some (spreadMerge prev fresh) }
        match objGet fresh "gpt_recommendation" with
        | none =>
            { s2 with error := some "Analysis failed. Please try again.",
                      analyzing := false }
        | some JsValue.null =>
            { s2 with error := some "Analysis failed. Please try again.",
                      analyzing := false }
        | some rec =>
            let source := jsOrDefault (jsField rec "source") (JsValue.str "AI Model")
            let action := jsOrDefault (jsField rec "action") (JsValue.str "HOLD")
            let reason := jsOrDefault (jsField rec "reason")
              (JsValue.str "Analysis completed.")
            { s2 with analysisResult := some (source, action, reason),
                      analyzing := false }

/-- A displayed signal entity for ticker 005930 before a re-analysis: price
74200, theme and name present, and a previous HOLD recommendation. -/
def samplePrev : List (String × JsValue) :=
  [("ticker", JsValue.str "005930"),
   ("name", JsValue.str "Samsung Electronics"),
   ("current_price", JsValue.num 74200),
   ("theme", JsValue.str "Semiconductor"),
   ("gpt_recommendation", JsValue.obj
     [("action", JsValue.str "HOLD"), ("confidence", JsValue.num (1 / 2)),
      ("reason", JsValue.str "wait")])]

/-- A successful re-analysis response for 005930 carrying only the ticker
and a fresh BUY recommendation with confidence 0.8 — price and theme are
absent from the response. -/
def sampleResp : List (String × JsValue) :=
  [("ticker", JsValue.str "005930"),
   ("gpt_recommendation", JsValue.obj
     [("action", JsValue.str "BUY"), ("confidence", JsValue.num (4 / 5)),
      ("reason", JsValue.str "momentum")])]

/-- A modal state in which the 005930 entity, a live chart and a previously
displayed inline analysis result are all on screen. -/
def sampleShownState : ModalState :=
  { loading := false, analyzing := false, error := none,
    signal := some samplePrev,
    analysisResult := some
      (JsValue.str "AI Model", JsValue.str "BUY", JsValue.str "strong"),
    chart := some 1, series := [] }

/-- An HTTP response as observed by the data-fetch helpers: its status code
and the outcome of `res.json()` (which itself may reject on a malformed
body, carrying the parse-error message). -/
structure JsResponse where
  status : Nat
  body : Except String JsValue

/-- `res.ok` of the Fetch API: status in the inclusive range 200–299. -/
def respOk (r : JsResponse) : Bool :=
  decide (200 ≤ r.status) && decide (r.status ≤ 299)

/-- Whether a call outcome is a rejection (a thrown error). -/
def isReject : Except String JsValue → Bool
  | Except.error _ => true
  | Except.ok _ => false

/-- `fetchJson` of `lib/api.ts`: on a non-ok status it throws
`Failed to fetch ${endpoint}`, otherwise it returns `res.json()`. -/
def fetchJson (endpoint : String) (r : JsResponse) : Except String JsValue :=
  if respOk r = false then Except.error ("Failed to fetch " ++ endpoint)
  else r.body

/-- `postJson` of `lib/api.ts`: serializes `payload` as the request body and
on a non-ok status throws `Failed to post to ${endpoint}`, otherwise returns
`res.json()`. -/
def postJson (endpoint : String) (payload : JsValue) (r : JsResponse) :
    Except String JsValue :=
  if respOk r = false then Except.error ("Failed to post to " ++ endpoint)
  else r.body

/-- `const API_BASE = process.env.NEXT_PUBLIC_API_URL || 'http://localhost:5000/api/kr'`:
the base URL resolved once from the environment with the documented local
default. -/
def API_BASE (envUrl : Option String) : String :=
  envUrl.getD "http://localhost:5000/api/kr"

/-- The endpoint of `fetchSignals` in the first variant of `lib/api.ts`:
the hardcoded root-relative literal, independent of any configuration. -/
def fetchSignalsUrlV1 : String := "/api/kr/signals"

/-- The endpoint of `fetchStockHistory` in the first variant. -/
def fetchStockHistoryUrlV1 (ticker : String) : String :=
  "/api/kr/history/" ++ ticker ++ "?period=1y"

/-- The endpoint of `fetchSignals` in the `API_BASE` variant. -/
def fetchSignalsUrl (env : Option String) : String :=
  API_BASE env ++ "/signals"

/-- The endpoint of `fetchMarketStatus` in the `API_BASE` variant. -/
def fetchMarketStatusUrl (env : Option String) : String :=
  API_BASE env ++ "/market-status"

/-- The endpoint of `fetchAIAnalysis` in the `API_BASE` variant. -/
def fetchAIAnalysisUrl (env : Option String) : String :=
  API_BASE env ++ "/ai-analysis"

/-- The endpoint of `fetchMacroIndicators` in the `API_BASE` variant. -/
def fetchMacroIndicatorsUrl (env : Option String) : String :=
  API_BASE env ++ "/macro-indicators"

/-- The endpoint of `fetchSectorPerformance` in the `API_BASE` variant. -/
def fetchSectorPerformanceUrl (env : Option String) : String :=
  API_BASE env ++ "/sector-performance"

/-- The endpoint of `fetchStockHistory` in the `API_BASE` variant. -/
def fetchStockHistoryUrl (env : Option String) (ticker : String) : String :=
  API_BASE env ++ ("/history/" ++ ticker ++ "?period=1y")

/-- The endpoint of `fetchStockAnalysis` (POST) in the `API_BASE` variant. -/
def fetchStockAnalysisUrl (env : Option String) : String :=
  API_BASE env ++ "/analyze-stock"

/-- The Mantine color names the dashboard maps severities and signs to. -/
inductive Color where
  | teal
  | yellow
  | gray
  | red
  | blue
  | dimmed
deriving Repr, DecidableEq

/-- The center-score color of `NiceRadarChart`:
`score >= 80 ? "teal" : score >= 50 ? "yellow" : "gray"`. -/
def scoreColor (score : ℚ) : Color :=
  if 80 ≤ score then Color.teal
  else if 50 ≤ score then Color.yellow
  else Color.gray

/-- The progress-bar color of `SignalTable`:
`niceScore >= 80 ? "teal" : niceScore >= 50 ? "yellow" : "gray"`. -/
def progressColor (niceScore : ℚ) : Color :=
  if 80 ≤ niceScore then Color.teal
  else if 50 ≤ niceScore then Color.yellow
  else Color.gray

/-- `x.toFixed(1)` for a nonnegative number: the decimal rendering of the
integer nearest to `10 * x`, ties rounded up, with one digit after the
point. -/
def toFixed1 (q : ℚ) : String :=
  let t : Int := Int.floor (q * 10 + 1 / 2)
  toString (t / 10) ++ "." ++ toString (t % 10)

/-- The rendered supply-flow cell: its text and its Mantine text color
(`dimmed` for the placeholder row). -/
structure SupplyDisplay where
  text : String
  color : Color
deriving Repr, DecidableEq

/-- `formatSupply` of `SignalTable`. The guard is the falsiness test
`if (!val) return <Text c="dimmed">-</Text>` — true for `undefined` and for
`0` alike. Otherwise the absolute value is abbreviated at the fixed
thresholds (≥ 1,000,000 → one decimal and `M`; ≥ 1,000 → one decimal and
`K`; else unabbreviated), a positive value is prefixed `+` and colored red,
a negative value keeps the bare absolute-value text and is colored blue
(the KR market convention). Supply-flow values are integral counts, so the
argument is an integer. -/
def formatSupply (val : Option Int) : SupplyDisplay :=
  match val with
  | none => { text := "-", color := Color.dimmed }
  | some v =>
    if v = 0 then { text := "-", color := Color.dimmed }
    else
      let absVal : Int := |v|
      let color := if 0 < v then Color.red else Color.blue
      let sign := if 0 < v then "+" else ""
      let formatted :=
        if 1000000 ≤ absVal then toFixed1 ((absVal : ℚ) / 1000000) ++ "M"
        else if 1000 ≤ absVal then toFixed1 ((absVal : ℚ) / 1000) ++ "K"
        else toString absVal
      { text := sign ++ formatted, color := color }

end KrDash

namespace KrDash

theorem liveInsts_append (log : List ChartEvent) (e : ChartEvent) :
    liveInsts (log ++ [e]) =
      (match e with
       | ChartEvent.created i => i :: liveInsts log
       | ChartEvent.removed i => (liveInsts log).erase i) := by
  cases e <;> simp [liveInsts, List.foldl_append]

theorem ctrlInv_removeChart (s : Ctrl) (h : ctrlInv s) : ctrlInv (removeChart s) := by
  unfold ctrlInv removeChart at *
  cases hc : s.chartRef with
  | none => simpa [hc] using h
  | some c =>
    simp only [hc] at h
    simp [hc, liveInsts_append, h]

theorem ctrlInv_step (s : Ctrl) (a : Act) (h : ctrlInv s) : ctrlInv (stepCtrl s a) := by
  cases a with
  | effectRun g =>
    cases g with
    | false => simpa [stepCtrl, effectRun] using h
    | true =>
      have h1 := ctrlInv_removeChart s h
      unfold ctrlInv at *
      simpa [stepCtrl, effectRun] using h1
  | timerFire m =>
    by_cases hp : s.timerPending
    · cases m with
      | false =>
        unfold ctrlInv at *
        simpa [stepCtrl, timerFire, hp] using h
      | true =>
        have h1 : ctrlInv (removeChart { s with timerPending := false }) := by
          apply ctrlInv_removeChart
          unfold ctrlInv at *
          simpa using h
        unfold ctrlInv at *
        have hrem : (removeChart { s with timerPending := false }).chartRef = none := by
          unfold removeChart
          cases hc : s.chartRef <;> simp [hc]
        simp only [hrem] at h1
        simp [stepCtrl, timerFire, hp, liveInsts_append, h1]
    · unfold ctrlInv at *
      simpa [stepCtrl, timerFire, hp] using h
  | resize => simpa [stepCtrl] using h
  | cleanup =>
    have h1 : ctrlInv ({ s with timerPending := false } : Ctrl) := by
      unfold ctrlInv at *
      simpa using h
    have h2 := ctrlInv_removeChart _ h1
    unfold ctrlInv at *
    simpa [stepCtrl, cleanup] using h2

theorem ctrlInv_runCtrl (acts : List Act) : ctrlInv (runCtrl acts) := by
  have hgen : ∀ (l : List Act) (s : Ctrl), ctrlInv s → ctrlInv (l.foldl stepCtrl s) := by
    intro l
    induction l with
    | nil => intro s h; simpa using h
    | cons a l ih =>
      intro s h
      exact ih _ (ctrlInv_step s a h)
  exact hgen acts Ctrl.init (by simp [ctrlInv, Ctrl.init, liveInsts])

/-- Claim C2: along every trigger sequence from the initial state at most one
live chart instance exists; disposing when no instance exists is a no-op; the
deferred-construction callback disposes the previous instance before creating
its replacement (the removal event precedes the creation event in the log);
and both the effect body and the cleanup dispose and null the previous
instance. -/
theorem chart_single_instance :
    (∀ acts : List Act, (liveInsts (runCtrl acts).log).length ≤ 1) ∧
    (∀ s : Ctrl, s.chartRef = none → removeChart s = s) ∧
    (∀ (s : Ctrl) (c : Nat), s.chartRef = some c → s.timerPending = true →
      (timerFire s true).log =
        s.log ++ [ChartEvent.removed c, ChartEvent.created s.nextId] ∧
      (timerFire s true).chartRef = some s.nextId) ∧
    (∀ (s : Ctrl) (c : Nat), s.chartRef = some c →
      (effectRun s true).chartRef = none ∧
      (effectRun s true).log = s.log ++ [ChartEvent.removed c]) ∧
    (∀ (s : Ctrl) (c : Nat), s.chartRef = some c →
      (cleanup s).chartRef = none ∧
      (cleanup s).log = s.log ++ [ChartEvent.removed c]) := by
  refine ⟨?_, ?_, ?_, ?_, ?_⟩
  · intro acts
    have h := ctrlInv_runCtrl acts
    unfold ctrlInv at h
    cases hc : (runCtrl acts).chartRef <;> simp [hc] at h <;> simp [h]
  · intro s h
    unfold removeChart
    simp [h]
  · intro s c hc hp
    unfold timerFire removeChart
    simp [hp, hc]
  · intro s c hc
    unfold effectRun removeChart
    simp [hc]
  · intro s c hc
    unfold cleanup removeChart
    simp [hc]

/-- Witness for C2 at concrete states: a run that constructs a chart has at
most one live instance, disposal from the empty initial state is a no-op, and
a state holding chart 3 with the timer armed logs removal of 3 before
creation of 7. -/
theorem chart_single_instance_witness :
    (liveInsts (runCtrl [Act.effectRun true, Act.timerFire true]).log).length ≤ 1 ∧
    removeChart Ctrl.init = Ctrl.init ∧
    (timerFire { chartRef := some 3, timerPending := true, nextId := 7,
                 log := [ChartEvent.created 3] } true).log =
      [ChartEvent.created 3] ++ [ChartEvent.removed 3, ChartEvent.created 7] ∧
    (effectRun { chartRef := some 3, timerPending := false, nextId := 7,
                 log := [ChartEvent.created 3] } true).chartRef = none ∧
    (cleanup { chartRef := some 3, timerPending := true, nextId := 7,
               log := [ChartEvent.created 3] } ).chartRef = none := by
  refine ⟨?_, ?_, ?_, ?_, ?_⟩
  · exact chart_single_instance.1 [Act.effectRun true, Act.timerFire true]
  · exact chart_single_instance.2.1 Ctrl.init rfl
  · exact (chart_single_instance.2.2.1 _ 3 rfl rfl).1
  · exact (chart_single_instance.2.2.2.1 _ 3 rfl).1
  · exact (chart_single_instance.2.2.2.2 _ 3 rfl).1

/-- Claim C1: for every list of historical series points, regardless of input
order, the candle list loaded into the chart series is non-decreasing by
timestamp: every adjacent pair of the sorted output satisfies
`parseTime earlier ≤ parseTime later`, and the output is a permutation of the
mapped input. -/
theorem chartData_sorted_by_time (parseTime : String → Int)
    (data : List HistoryPoint) :
    (chartDataOf parseTime data).Chain'
      (fun a b => parseTime a.time ≤ parseTime b.time) ∧
    (chartDataOf parseTime data).Perm (data.map toCandle) := by
  constructor
  · have h := @List.sorted_mergeSort Candle
      (fun a b : Candle => decide (parseTime a.time ≤ parseTime b.time))
      (fun a b c hab hbc => by
        simp only [decide_eq_true_eq] at *
        omega)
      (fun a b => by
        simp only [Bool.or_eq_true, decide_eq_true_eq]
        omega)
      (data.map toCandle)
    have hp : (chartDataOf parseTime data).Pairwise
        (fun a b => parseTime a.time ≤ parseTime b.time) := by
      refine (List.pairwise_iff_forall_sublist.mpr ?_)
      intro a b hs
      have := List.pairwise_iff_forall_sublist.mp h hs
      simpa using this
    exact hp.chain'
  · exact List.mergeSort_perm (data.map toCandle) _

/-- Counterexample to claim C3 as stated: when the historical-series fetch
resolves with an empty list, the handler clears the loading flag and returns
without surfacing any inline error — the error state stays `none`, it does
not become non-null. -/
theorem chart_empty_data_no_error :
    (onHistoryResult (fun _ => 0)
      { loading := true, analyzing := false, error := none, signal := none,
        analysisResult := none, chart := some 1, series := [] }
      (Except.ok (some []))).error = none ∧
    (onHistoryResult (fun _ => 0)
      { loading := true, analyzing := false, error := none, signal := none,
        analysisResult := none, chart := some 1, series := [] }
      (Except.ok none)).error = none := by
  exact ⟨rfl, rfl⟩

/-- Claim C3 (amended): when the historical-series fetch rejects, the handler
surfaces the inline error text without destroying the chart instance; when it
resolves with no usable data (a null body or an empty list) it clears the
loading flag and leaves the error state unchanged — no inline error — again
without destroying the chart instance. -/
theorem chart_fetch_error_inline (parseTime : String → Int) (s : ModalState)
    (e : String) (d : List HistoryPoint) :
    ((onHistoryResult parseTime s (Except.error e)).error =
        some "Failed to load chart data" ∧
      (onHistoryResult parseTime s (Except.error e)).chart = s.chart ∧
      (onHistoryResult parseTime s (Except.error e)).loading = false) ∧
    ((onHistoryResult parseTime s (Except.ok none)).error = s.error ∧
      (onHistoryResult parseTime s (Except.ok none)).chart = s.chart ∧
      (onHistoryResult parseTime s (Except.ok none)).loading = false) ∧
    (onHistoryResult parseTime s (Except.ok (some []))).error = s.error ∧
    (onHistoryResult parseTime s (Except.ok (some d))).chart = s.chart := by
  refine ⟨⟨rfl, rfl, rfl⟩, ⟨rfl, rfl, rfl⟩, rfl, ?_⟩
  unfold onHistoryResult
  split <;> try rfl
  split <;> rfl

theorem objGet_cons (k' : String) (v : JsValue) (l : List (String × JsValue))
    (k : String) :
    objGet ((k', v) :: l) k = if k' = k then some v else objGet l k := by
  by_cases h : k' = k <;> simp [objGet, List.find?, h]

theorem objGet_spreadMerge (prev resp : List (String × JsValue)) (k : String) :
    objGet (spreadMerge prev resp) k = (objGet resp k).or (objGet prev k) := by
  induction prev with
  | nil =>
    have h1 : spreadMerge [] resp = resp := rfl
    have h2 : objGet ([] : List (String × JsValue)) k = none := rfl
    rw [h1, h2]
    cases hr : objGet resp k <;> simp [hr, Option.or]
  | cons kv tl ih =>
    obtain ⟨k', v⟩ := kv
    by_cases hk : k' = k <;> cases hr : objGet resp k' <;>
      simp_all [spreadMerge, List.filter_cons, objGet_cons, Option.or]

/-- Claim C4: after every successful re-analysis response the displayed
entity is the shallow merge of the previous entity and the response: every
own property of the response takes the response value, every property absent
from the response keeps the previous value; concretely, for ticker 005930 a
response carrying a BUY recommendation but no price or theme updates the
displayed recommendation to BUY while price 74200 and the theme are
unchanged, and the inline result shows BUY with the default source label. -/
theorem reanalyze_success_shallow_merge :
    (∀ (s : ModalState) (prev resp : List (String × JsValue)),
      s.signal = some prev →
      (handleReAnalyze s (Except.ok resp)).signal =
        some (spreadMerge prev resp)) ∧
    (∀ (prev resp : List (String × JsValue)) (k : String),
      objGet (spreadMerge prev resp) k = (objGet resp k).or (objGet prev k)) ∧
    objGet (spreadMerge samplePrev sampleResp) "gpt_recommendation" =
      some (JsValue.obj
        [("action", JsValue.str "BUY"), ("confidence", JsValue.num (4 / 5)),
         ("reason", JsValue.str "momentum")]) ∧
    objGet (spreadMerge samplePrev sampleResp) "current_price" =
      some (JsValue.num 74200) ∧
    objGet (spreadMerge samplePrev sampleResp) "theme" =
      some (JsValue.str "Semiconductor") ∧
    (handleReAnalyze { sampleShownState with analysisResult := none }
      (Except.ok sampleResp)).analysisResult =
      some (JsValue.str "AI Model", JsValue.str "BUY", JsValue.str "momentum") := by
  refine ⟨?_, objGet_spreadMerge, rfl, rfl, rfl, rfl⟩
  intro s prev resp h
  obtain ⟨l, a, e, sig, ar, ch, ser⟩ := s
  simp only at h
  subst h
  simp only [handleReAnalyze]
  split <;> rfl

/-- Witness for C4: applying the merge theorem to the concrete 005930 state
whose displayed entity is `samplePrev`. -/
theorem reanalyze_success_shallow_merge_witness :
    (handleReAnalyze { sampleShownState with analysisResult := none }
      (Except.ok sampleResp)).signal =
      some (spreadMerge samplePrev sampleResp) :=
  reanalyze_success_shallow_merge.1 _ samplePrev sampleResp rfl

/-- Counterexample to claim C5 as stated: a failing re-analysis does not
leave the analysis-result display unchanged — the handler resets it to null
before the request, so a previously displayed inline result disappears. -/
theorem reanalyze_failure_clears_result :
    (handleReAnalyze sampleShownState (Except.error "network error")).analysisResult
        = none ∧
    ¬ ((handleReAnalyze sampleShownState
          (Except.error "network error")).analysisResult
        = sampleShownState.analysisResult) := by
  exact ⟨rfl, by simp [handleReAnalyze, sampleShownState]⟩

/-- Claim C5 (amended): for every re-analysis action whose request rejects,
the local error message is shown and the displayed entity, the chart
instance, the loaded series and the loading flag are unchanged; the inline
analysis-result display, however, is reset to null at the start of the
action, so it ends cleared rather than preserved. -/
theorem reanalyze_failure_atomic (s : ModalState) (e : String)
    (prev : List (String × JsValue)) (h : s.signal = some prev) :
    (handleReAnalyze s (Except.error e)).error =
      some "Analysis failed. Please try again." ∧
    (handleReAnalyze s (Except.error e)).signal = s.signal ∧
    (handleReAnalyze s (Except.error e)).chart = s.chart ∧
    (handleReAnalyze s (Except.error e)).series = s.series ∧
    (handleReAnalyze s (Except.error e)).loading = s.loading ∧
    (handleReAnalyze s (Except.error e)).analysisResult = none ∧
    (handleReAnalyze s (Except.error e)).analyzing = false := by
  obtain ⟨l, a, er, sig, ar, ch, ser⟩ := s
  simp only at h
  subst h
  exact ⟨rfl, rfl, rfl, rfl, rfl, rfl, rfl⟩

/-- Witness for the amended C5 at the concrete 005930 state. -/
theorem reanalyze_failure_atomic_witness :
    (handleReAnalyze sampleShownState (Except.error "network error")).error =
      some "Analysis failed. Please try again." ∧
    (handleReAnalyze sampleShownState (Except.error "network error")).signal =
      sampleShownState.signal ∧
    (handleReAnalyze sampleShownState (Except.error "network error")).chart =
      sampleShownState.chart :=
  let h := reanalyze_failure_atomic sampleShownState "network error" samplePrev rfl
  ⟨h.1, h.2.1, h.2.2.1⟩

/-- Claim C6: a `fetchJson` or `postJson` call rejects exactly when the HTTP
status is not a success status or the body fails to parse; on a non-success
status the thrown message names the failed target endpoint; on a success
status the call returns (or propagates the parse failure of) the parsed JSON
body. -/
theorem fetch_reject_iff_status (endpoint : String) (payload : JsValue)
    (r : JsResponse) :
    (isReject (fetchJson endpoint r) = true ↔
      (respOk r = false ∨ isReject r.body = true)) ∧
    (respOk r = false →
      fetchJson endpoint r = Except.error ("Failed to fetch " ++ endpoint)) ∧
    (respOk r = true → fetchJson endpoint r = r.body) ∧
    (isReject (postJson endpoint payload r) = true ↔
      (respOk r = false ∨ isReject r.body = true)) ∧
    (respOk r = false →
      postJson endpoint payload r =
        Except.error ("Failed to post to " ++ endpoint)) ∧
    (respOk r = true → postJson endpoint payload r = r.body) := by
  cases hok : respOk r <;> cases hb : r.body <;>
    simp [fetchJson, postJson, hok, hb, isReject]

/-- Witness for C6: a 404 rejects with the endpoint-naming message, a 200
returns the parsed body, a 500 POST rejects with the post message. -/
theorem fetch_reject_iff_status_witness :
    fetchJson "/api/kr/signals" { status := 404, body := Except.ok JsValue.null } =
      Except.error "Failed to fetch /api/kr/signals" ∧
    fetchJson "/api/kr/signals"
      { status := 200, body := Except.ok (JsValue.num 1) } =
      Except.ok (JsValue.num 1) ∧
    postJson "/api/kr/analyze-stock" JsValue.null
      { status := 500, body := Except.ok JsValue.null } =
      Except.error "Failed to post to /api/kr/analyze-stock" := by
  refine ⟨?_, ?_, ?_⟩
  · exact (fetch_reject_iff_status "/api/kr/signals" JsValue.null _).2.1 (by decide)
  · exact (fetch_reject_iff_status "/api/kr/signals" JsValue.null _).2.2.1 (by decide)
  · exact (fetch_reject_iff_status "/api/kr/analyze-stock" JsValue.null _).2.2.2.2.1
      (by decide)

/-- Counterexample to claim C7 as stated: `fetchSignals` of the first
variant of `lib/api.ts` targets the hardcoded literal `/api/kr/signals`,
which cannot be the configured base followed by any endpoint path — with the
default base every base-prefixed URL is at least 28 characters long while
the hardcoded one has 15. -/
theorem apiV1_not_base_prefixed :
    ¬ ∃ p : String, fetchSignalsUrlV1 = API_BASE none ++ p := by
  rintro ⟨p, hp⟩
  have hlen := congrArg String.length hp
  rw [String.length_append] at hlen
  have h1 : fetchSignalsUrlV1.length = 15 := by decide
  have h2 : (API_BASE none).length = 28 := by decide
  rw [h1, h2] at hlen
  omega

/-- Claim C7 (amended): in the `API_BASE` variant of the data-fetch layer
every exported fetch function targets the configured base (resolved once
from the environment, defaulting to the documented local address) followed
by its endpoint path; the other variant present in the repository instead
uses hardcoded root-relative `/api/kr/...` endpoints that ignore the
configured base. -/
theorem api_urls_use_base (env : Option String) (u ticker : String) :
    API_BASE none = "http://localhost:5000/api/kr" ∧
    API_BASE (some u) = u ∧
    fetchSignalsUrl env = API_BASE env ++ "/signals" ∧
    fetchMarketStatusUrl env = API_BASE env ++ "/market-status" ∧
    fetchAIAnalysisUrl env = API_BASE env ++ "/ai-analysis" ∧
    fetchMacroIndicatorsUrl env = API_BASE env ++ "/macro-indicators" ∧
    fetchSectorPerformanceUrl env = API_BASE env ++ "/sector-performance" ∧
    fetchStockHistoryUrl env ticker =
      API_BASE env ++ ("/history/" ++ ticker ++ "?period=1y") ∧
    fetchStockAnalysisUrl env = API_BASE env ++ "/analyze-stock" ∧
    fetchSignalsUrlV1 = "/api/kr/signals" ∧
    fetchStockHistoryUrlV1 ticker = "/api/kr/history/" ++ ticker ++ "?period=1y" :=
  ⟨rfl, rfl, rfl, rfl, rfl, rfl, rfl, rfl, rfl, rfl, rfl⟩

/-- Claim C8: the severity band is chosen by inclusive `>=` comparisons —
score 0 gives the lowest band (gray), 80 and above gives the highest band
(teal), `[50, 80)` gives the middle band (yellow) — and the signal table's
progress color and the radar chart's center score color agree everywhere. -/
theorem score_band_colors (s : ℚ) :
    (s = 0 → scoreColor s = Color.gray ∧ progressColor s = Color.gray) ∧
    (80 ≤ s → scoreColor s = Color.teal ∧ progressColor s = Color.teal) ∧
    (50 ≤ s → s < 80 →
      scoreColor s = Color.yellow ∧ progressColor s = Color.yellow) ∧
    scoreColor s = progressColor s := by
  unfold scoreColor progressColor
  refine ⟨?_, ?_, ?_, rfl⟩
  · rintro rfl
    norm_num
  · intro h
    rw [if_pos h]
    exact ⟨rfl, rfl⟩
  · intro h1 h2
    have h80 : ¬ (80 ≤ s) := by linarith
    rw [if_neg h80, if_pos h1]
    exact ⟨rfl, rfl⟩

/-- Witness for C8 at the boundary scores 0, 80 and 50. -/
theorem score_band_colors_witness :
    (scoreColor 0 = Color.gray ∧ progressColor 0 = Color.gray) ∧
    (scoreColor 80 = Color.teal ∧ progressColor 80 = Color.teal) ∧
    (scoreColor 50 = Color.yellow ∧ progressColor 50 = Color.yellow) :=
  ⟨(score_band_colors 0).1 rfl,
   (score_band_colors 80).2.1 (by norm_num),
   (score_band_colors 50).2.2.1 (by norm_num) (by norm_num)⟩

/-- Claim C9: for every nonzero supply-flow value the display abbreviates
the absolute value at the fixed thresholds (≥ 1,000,000 → one decimal and
`M`; ≥ 1,000 → one decimal and `K`; else unabbreviated), prefixes `+` and
colors red when positive, and shows the bare absolute-value abbreviation in
blue when negative; concretely +1,500,000 renders as `+1.5M` in red and
−2,300 renders as `2.3K` in blue. -/
theorem formatSupply_abbrev :
    (∀ v : Int, v ≠ 0 → 1000000 ≤ |v| →
      formatSupply (some v) =
        { text := (if 0 < v then "+" else "") ++
            (toFixed1 ((|v| : ℚ) / 1000000) ++ "M"),
          color := if 0 < v then Color.red else Color.blue }) ∧
    (∀ v : Int, v ≠ 0 → 1000 ≤ |v| → |v| < 1000000 →
      formatSupply (some v) =
        { text := (if 0 < v then "+" else "") ++
            (toFixed1 ((|v| : ℚ) / 1000) ++ "K"),
          color := if 0 < v then Color.red else Color.blue }) ∧
    (∀ v : Int, v ≠ 0 → |v| < 1000 →
      formatSupply (some v) =
        { text := (if 0 < v then "+" else "") ++ toString |v|,
          color := if 0 < v then Color.red else Color.blue }) ∧
    formatSupply (some 1500000) = { text := "+1.5M", color := Color.red } ∧
    formatSupply (some (-2300)) = { text := "2.3K", color := Color.blue } := by
  refine ⟨?_, ?_, ?_, ?_, ?_⟩
  · intro v hv h
    simp only [formatSupply]
    rw [if_neg hv, if_pos h, Int.cast_abs]
  · intro v hv h1 h2
    simp only [formatSupply]
    rw [if_neg hv, if_neg (not_le.mpr h2), if_pos h1, Int.cast_abs]
  · intro v hv h
    simp only [formatSupply]
    have hM : ¬ (1000000 : Int) ≤ |v| := not_le.mpr (h.trans (by norm_num))
    rw [if_neg hv, if_neg hM, if_neg (not_le.mpr h)]
  · have habs : |(1500000 : Int)| = 1500000 := by decide
    simp only [formatSupply, habs]
    rw [if_neg (by norm_num : ¬ (1500000 : Int) = 0),
        if_pos (by norm_num : (1000000 : Int) ≤ 1500000),
        if_pos (by norm_num : (0 : Int) < 1500000)]
    have hc : ((1500000 : Int) : ℚ) = 1500000 := by norm_num
    have ht : toFixed1 ((1500000 : ℚ) / 1000000) = "1.5" := by
      simp only [toFixed1]
      have h1 : ((1500000 : ℚ) / 1000000) * 10 + 1 / 2 = 31 / 2 := by norm_num
      rw [h1]
      have h2 : ⌊(31 : ℚ) / 2⌋ = (15 : Int) := by
        rw [Int.floor_eq_iff]
        norm_num
      rw [h2]
      decide
    rw [hc, ht]
    decide
  · have habs : |(-2300 : Int)| = 2300 := by decide
    simp only [formatSupply, habs]
    rw [if_neg (by norm_num : ¬ (-2300 : Int) = 0),
        if_neg (by norm_num : ¬ (1000000 : Int) ≤ 2300),
        if_pos (by norm_num : (1000 : Int) ≤ 2300),
        if_neg (by norm_num : ¬ (0 : Int) < -2300)]
    have hc : ((2300 : Int) : ℚ) = 2300 := by norm_num
    have ht : toFixed1 ((2300 : ℚ) / 1000) = "2.3" := by
      simp only [toFixed1]
      have h1 : ((2300 : ℚ) / 1000) * 10 + 1 / 2 = 47 / 2 := by norm_num
      rw [h1]
      have h2 : ⌊(47 : ℚ) / 2⌋ = (23 : Int) := by
        rw [Int.floor_eq_iff]
        norm_num
      rw [h2]
      decide
    rw [hc, ht]
    decide

/-- Witness for C9: the abbreviation theorem applied at +1,500,000 (the `M`
branch) and at −2,300 (the `K` branch). -/
theorem formatSupply_abbrev_witness :
    formatSupply (some 1500000) =
      { text := (if 0 < (1500000 : Int) then "+" else "") ++
          (toFixed1 ((|(1500000 : Int)| : ℚ) / 1000000) ++ "M"),
        color := if 0 < (1500000 : Int) then Color.red else Color.blue } ∧
    formatSupply (some (-2300)) =
      { text := (if 0 < (-2300 : Int) then "+" else "") ++
          (toFixed1 ((|(-2300 : Int)| : ℚ) / 1000) ++ "K"),
        color := if 0 < (-2300 : Int) then Color.red else Color.blue } :=
  ⟨formatSupply_abbrev.1 1500000 (by norm_num) (by decide),
   formatSupply_abbrev.2.1 (-2300) (by norm_num) (by decide) (by decide)⟩

/-- Claim C10: a supply-flow value of exactly 0 renders the `-` placeholder
exactly as an absent value does, because the guard is the falsiness test
`!val`; a genuine zero net flow is indistinguishable from missing data. -/
theorem formatSupply_zero_placeholder :
    formatSupply (some 0) = formatSupply none ∧
    formatSupply (some 0) = { text := "-", color := Color.dimmed } ∧
    formatSupply none = { text := "-", color := Color.dimmed } :=
  ⟨rfl, rfl, rfl⟩

end KrDash
